import Mathlib

/-!
Shallow embedding of `src/desafio_dio.py`, a single-file console banking
exercise.  The transaction core (classes `Deposito`, `Saque`, `Historico`,
`Conta`), the registry helpers (`filtrar_usuario_por_cpf`, `criar_usuario`,
`criar_conta`) and their behaviour are translated here as pure Lean
functions; the Python mutation of `conta` becomes explicit state passing
(each operation returns the new `Conta` together with its result).  Python
`float` currency amounts are embedded as exact rationals (`ℚ`); the
source never relies on floating-point rounding for its business rules.
Python `int` counters (`numero_saques`, `limite_saques`), which the source
only ever creates non-negative (initial count 0, default limit 3), are
embedded as `Nat`.
-/

namespace Desafio

/-- `Historico`: append-only list of textual transaction records
(`registros: List[str]`, default empty). -/
structure Historico where
  registros : List String
  deriving DecidableEq, Repr

/-- `Historico.registrar`: `self.registros.append(linha)`. -/
def Historico.registrar (h : Historico) (linha : String) : Historico :=
  ⟨h.registros ++ [linha]⟩

/-- `Historico.esta_vazio`: `len(self.registros) == 0`. -/
def Historico.esta_vazio (h : Historico) : Bool :=
  h.registros.length == 0

/-- `Historico.texto`: `"" if empty else "\n".join(self.registros) + "\n"`. -/
def Historico.texto (h : Historico) : String :=
  if h.esta_vazio then "" else String.intercalate "\n" h.registros ++ "\n"

/-- `PessoaFisica` (with the `Cliente` fields inlined, as the dataclass
inheritance flattens them): name, address, cpf (national id), birth date. -/
structure PessoaFisica where
  nome : String
  endereco : String
  cpf : String
  data_nascimento : String
  deriving DecidableEq, Repr

/-- `Conta.__init__`: branch, sequential number, owner, balance (default 0.0),
per-withdrawal ceiling `limite` (default 500.0), withdrawal-count ceiling
`limite_saques` (default 3), withdrawal count `numero_saques` (always 0 at
construction), fresh empty `Historico`. -/
structure Conta where
  agencia : String
  numero_conta : Nat
  cliente : PessoaFisica
  saldo : ℚ
  limite : ℚ
  limite_saques : Nat
  numero_saques : Nat
  historico : Historico
  deriving DecidableEq, Repr

/-- Two-decimal fixed-point rendering, embedding Python's `f"{v:.2f}"`:
the magnitude is rounded to the nearest hundredth (the source only ever
formats amounts that are exact multiples of 0.01, where no rounding occurs)
and printed with exactly two digits after the decimal point.  The cent
count `(natAbs num * 200 + den) / (2 * den)` is `⌊|v| * 100 + 1/2⌋`,
computed on the reduced numerator and denominator. -/
def formatar2 (v : ℚ) : String :=
  let sinal : String := if v.num < 0 then "-" else ""
  let centavos : ℕ := (v.num.natAbs * 200 + v.den) / (2 * v.den)
  let reais : ℕ := centavos / 100
  let resto : ℕ := centavos % 100
  sinal ++ toString reais ++ "." ++
    (if resto < 10 then "0" ++ toString resto else toString resto)

/-- `Deposito.descricao`: `f"Depósito:\tR$ {self.valor:.2f}"`. -/
def Deposito.descricao (valor : ℚ) : String :=
  "Depósito:\tR$ " ++ formatar2 valor

/-- `Saque.descricao`: `f"Saque:\t\tR$ {self.valor:.2f}"`. -/
def Saque.descricao (valor : ℚ) : String :=
  "Saque:\t\tR$ " ++ formatar2 valor

/-- `Deposito.executar(conta)`: if `valor > 0` then
`conta.saldo += valor; conta.historico.registrar(descricao()); return True`
else `return False`.  The mutated account is returned explicitly. -/
def Deposito.executar (valor : ℚ) (conta : Conta) : Conta × Bool :=
  if valor > 0 then
    ({ conta with
        saldo := conta.saldo + valor
        historico := conta.historico.registrar (Deposito.descricao valor) },
     true)
  else
    (conta, false)

/-- `Saque.executar(conta)`: the four ordered guard clauses, each returning
`(False, reason)`, then the state update
`saldo -= valor; numero_saques += 1; historico.registrar(descricao())`
and `(True, None)`.  The mutated account is returned explicitly. -/
def Saque.executar (valor : ℚ) (conta : Conta) : Conta × (Bool × Option String) :=
  if valor ≤ 0 then
    (conta, (false, some "valor_invalido"))
  else if valor > conta.saldo then
    (conta, (false, some "saldo_insuficiente"))
  else if valor > conta.limite then
    (conta, (false, some "excede_limite"))
  else if conta.numero_saques ≥ conta.limite_saques then
    (conta, (false, some "excede_numero_saques"))
  else
    ({ conta with
        saldo := conta.saldo - valor
        numero_saques := conta.numero_saques + 1
        historico := conta.historico.registrar (Saque.descricao valor) },
     (true, none))

/-- The transaction kinds dispatched by `Conta.executar_transacao`'s
`isinstance` chain.  `Deposito` and `Saque` are the two concrete
subclasses of the abstract `Transacao`; `outra` stands for any other
(hypothetical) `Transacao` subclass, reaching the defensive final
`return` of the dispatcher. -/
inductive Transacao where
  | deposito (valor : ℚ)
  | saque (valor : ℚ)
  | outra
  deriving DecidableEq, Repr

/-- The dictionary returned by `Conta.executar_transacao`:
`{"sucesso": bool}` (no `"motivo"` key, embedded as `motivo = none`) for
deposits, `{"sucesso": bool, "motivo": Optional[str]}` for withdrawals and
for the defensive unknown-transaction branch. -/
structure Resultado where
  sucesso : Bool
  motivo : Option String
  deriving DecidableEq, Repr

/-- `Conta.executar_transacao(transacao)`: `isinstance` dispatch to the
transaction's own `executar`, packaging the result; unknown kinds yield
`{"sucesso": False, "motivo": "transacao_desconhecida"}` without touching
the account. -/
def Conta.executar_transacao (conta : Conta) (transacao : Transacao) :
    Conta × Resultado :=
  match transacao with
  | .deposito valor =>
      let r := Deposito.executar valor conta
      (r.1, ⟨r.2, none⟩)
  | .saque valor =>
      let r := Saque.executar valor conta
      (r.1, ⟨r.2.1, r.2.2⟩)
  | .outra =>
      (conta, ⟨false, some "transacao_desconhecida"⟩)

/-- `filtrar_usuario_por_cpf(cpf, usuarios)`: linear scan returning the
first user whose `cpf` matches, else `None`. -/
def filtrar_usuario_por_cpf (cpf : String) :
    List PessoaFisica → Option PessoaFisica
  | [] => none
  | u :: resto =>
      if u.cpf == cpf then some u else filtrar_usuario_por_cpf cpf resto

/-- `criar_usuario(usuarios)`: duplicate-cpf check via
`filtrar_usuario_por_cpf`, then append of the new `PessoaFisica`.  The
console prompts deliver the four field strings, taken here as parameters;
the flag is `true` iff the user was created, paired with the resulting
user list (unchanged on the duplicate branch). -/
def criar_usuario (cpf nome data_nascimento endereco : String)
    (usuarios : List PessoaFisica) : Bool × List PessoaFisica :=
  match filtrar_usuario_por_cpf cpf usuarios with
  | some _ => (false, usuarios)
  | none =>
      (true, usuarios ++ [⟨nome, endereco, cpf, data_nascimento⟩])

/-- `criar_conta(agencia, numero_conta, usuarios)`: the cpf read from the
console is a parameter here; on a successful lookup a new `Conta` is built
with the constructor defaults (`saldo=0.0`, `limite=500.0`,
`limite_saques=3`, `numero_saques=0`, empty history), otherwise `None`. -/
def criar_conta (agencia : String) (numero_conta : Nat) (cpf : String)
    (usuarios : List PessoaFisica) : Option Conta :=
  match filtrar_usuario_por_cpf cpf usuarios with
  | some usuario =>
      some ⟨agencia, numero_conta, usuario, 0, 500, 3, 0, ⟨[]⟩⟩
  | none => none

/-- Sequential application of a list of transactions to an account via
`executar_transacao`, collecting the outcomes — the driver loop's repeated
dispatch, with the mutated account threaded through. -/
def executar_sequencia (conta : Conta) :
    List Transacao → Conta × List Resultado
  | [] => (conta, [])
  | t :: resto =>
      let passo := conta.executar_transacao t
      let fim := executar_sequencia passo.1 resto
      (fim.1, passo.2 :: fim.2)

/-- A concrete registered person used by concrete-scenario theorems. -/
def pessoa_exemplo : PessoaFisica :=
  ⟨"Ana", "Rua A, 1", "11122233344", "01-01-1990"⟩

/-- A concrete fresh account (constructor defaults) used by
concrete-scenario theorems. -/
def conta_exemplo : Conta :=
  ⟨"0001", 1, pessoa_exemplo, 0, 500, 3, 0, ⟨[]⟩⟩

/-- `conta_exemplo` after a deposit of 200: balance 200, no withdrawals
yet, used by concrete withdrawal scenarios. -/
def conta_com_saldo : Conta :=
  ⟨"0001", 1, pessoa_exemplo, 200, 500, 3, 0, ⟨[]⟩⟩

/-- **C1.** `Saque.executar` performs its checks in the fixed order
invalid amount (`valor_invalido`), insufficient balance
(`saldo_insuficiente`), per-transaction ceiling (`excede_limite`),
withdrawal count (`excede_numero_saques`), short-circuiting at the first
failure with the account untouched; when all checks pass the balance
decreases by the amount, the withdrawal count increases by 1, exactly one
description is appended to the history, and the outcome is success. -/
theorem saque_executar_spec (conta : Conta) (valor : ℚ) :
    (valor ≤ 0 →
      Saque.executar valor conta = (conta, (false, some "valor_invalido"))) ∧
    (0 < valor → conta.saldo < valor →
      Saque.executar valor conta = (conta, (false, some "saldo_insuficiente"))) ∧
    (0 < valor → valor ≤ conta.saldo → conta.limite < valor →
      Saque.executar valor conta = (conta, (false, some "excede_limite"))) ∧
    (0 < valor → valor ≤ conta.saldo → valor ≤ conta.limite →
      conta.limite_saques ≤ conta.numero_saques →
      Saque.executar valor conta = (conta, (false, some "excede_numero_saques"))) ∧
    (0 < valor → valor ≤ conta.saldo → valor ≤ conta.limite →
      conta.numero_saques < conta.limite_saques →
      Saque.executar valor conta =
        ({ conta with
            saldo := conta.saldo - valor
            numero_saques := conta.numero_saques + 1
            historico := ⟨conta.historico.registros ++ [Saque.descricao valor]⟩ },
         (true, none))) := by
  refine ⟨?_, ?_, ?_, ?_, ?_⟩ <;> intros <;>
    simp only [Saque.executar, Historico.registrar] <;>
    split_ifs <;> first | rfl | (exfalso; linarith) | (exfalso; omega)

/-- Witness for C1: on the concrete account with balance 200, a withdrawal
of 100 passes every check and produces the updated account. -/
theorem saque_executar_spec_witness :
    (0 : ℚ) < 100 ∧ (100 : ℚ) ≤ conta_com_saldo.saldo ∧
    (100 : ℚ) ≤ conta_com_saldo.limite ∧
    conta_com_saldo.numero_saques < conta_com_saldo.limite_saques ∧
    Saque.executar 100 conta_com_saldo =
      ({ conta_com_saldo with
          saldo := conta_com_saldo.saldo - 100
          numero_saques := conta_com_saldo.numero_saques + 1
          historico :=
            ⟨conta_com_saldo.historico.registros ++ [Saque.descricao 100]⟩ },
       (true, none)) := by
  have h1 : (0 : ℚ) < 100 := by norm_num
  have h2 : (100 : ℚ) ≤ conta_com_saldo.saldo := by norm_num [conta_com_saldo]
  have h3 : (100 : ℚ) ≤ conta_com_saldo.limite := by norm_num [conta_com_saldo]
  have h4 : conta_com_saldo.numero_saques < conta_com_saldo.limite_saques := by
    decide
  exact ⟨h1, h2, h3, h4,
    (saque_executar_spec conta_com_saldo 100).2.2.2.2 h1 h2 h3 h4⟩

/-- **C2.** For every amount `a > 0`, `Deposito.executar` increases the
balance by exactly `a`, appends exactly one history entry, and reports
success; for `a ≤ 0`, both `Deposito.executar` and `Saque.executar` leave
the account (balance and history) unchanged and report failure. -/
theorem deposito_saque_valor_spec (conta : Conta) (valor : ℚ) :
    (0 < valor →
      Deposito.executar valor conta =
        ({ conta with
            saldo := conta.saldo + valor
            historico :=
              ⟨conta.historico.registros ++ [Deposito.descricao valor]⟩ },
         true)) ∧
    (valor ≤ 0 →
      Deposito.executar valor conta = (conta, false) ∧
      (Saque.executar valor conta).1 = conta ∧
      (Saque.executar valor conta).2.1 = false) := by
  constructor
  · intro h
    simp only [Deposito.executar, Historico.registrar]
    split_ifs <;> first | rfl | (exfalso; linarith)
  · intro h
    refine ⟨?_, ?_, ?_⟩ <;>
      simp only [Deposito.executar, Saque.executar, Historico.registrar] <;>
      split_ifs <;> first | rfl | (exfalso; linarith)

/-- Witness for C2: a deposit of 150 on the fresh account succeeds with
the single new history entry, and both operations reject −5 without
touching the account. -/
theorem deposito_saque_valor_spec_witness :
    (0 : ℚ) < 150 ∧
    Deposito.executar 150 conta_exemplo =
      ({ conta_exemplo with
          saldo := conta_exemplo.saldo + 150
          historico :=
            ⟨conta_exemplo.historico.registros ++ [Deposito.descricao 150]⟩ },
       true) ∧
    (-5 : ℚ) ≤ 0 ∧
    Deposito.executar (-5) conta_exemplo = (conta_exemplo, false) ∧
    (Saque.executar (-5) conta_exemplo).1 = conta_exemplo ∧
    (Saque.executar (-5) conta_exemplo).2.1 = false := by
  have hpos : (0 : ℚ) < 150 := by norm_num
  have hneg : (-5 : ℚ) ≤ 0 := by norm_num
  exact ⟨hpos, (deposito_saque_valor_spec conta_exemplo 150).1 hpos, hneg,
    ((deposito_saque_valor_spec conta_exemplo (-5)).2 hneg).1,
    ((deposito_saque_valor_spec conta_exemplo (-5)).2 hneg).2.1,
    ((deposito_saque_valor_spec conta_exemplo (-5)).2 hneg).2.2⟩

/-- **C5.** `Conta.executar_transacao` returns a structured outcome whose
`motivo` field is `none` for every deposit outcome and for every
withdrawal success, is populated (`some _`) exactly on withdrawal
failures, and on an unrecognized transaction kind is the failure outcome
with reason `transacao_desconhecida` (the spec's `unknown_transaction`),
leaving the account untouched. -/
theorem executar_transacao_spec (conta : Conta) (valor : ℚ) :
    (conta.executar_transacao (.deposito valor)).2.motivo = none ∧
    ((conta.executar_transacao (.saque valor)).2.sucesso = true →
      (conta.executar_transacao (.saque valor)).2.motivo = none) ∧
    ((conta.executar_transacao (.saque valor)).2.sucesso = false →
      ∃ m, (conta.executar_transacao (.saque valor)).2.motivo = some m) ∧
    conta.executar_transacao .outra =
      (conta, ⟨false, some "transacao_desconhecida"⟩) := by
  refine ⟨rfl, ?_, ?_, rfl⟩ <;>
    simp only [Conta.executar_transacao, Saque.executar] <;>
    split_ifs <;> simp

/-- Witness for C5: on the fresh account (balance 0) a withdrawal of 100
fails and carries a reason; on the funded account it succeeds and the
reason field is `none`. -/
theorem executar_transacao_spec_witness :
    (conta_exemplo.executar_transacao (.saque 100)).2.sucesso = false ∧
    (∃ m, (conta_exemplo.executar_transacao (.saque 100)).2.motivo = some m) ∧
    (conta_com_saldo.executar_transacao (.saque 100)).2.sucesso = true ∧
    (conta_com_saldo.executar_transacao (.saque 100)).2.motivo = none := by
  refine ⟨by decide, (executar_transacao_spec conta_exemplo 100).2.2.1 (by decide),
    by decide, (executar_transacao_spec conta_com_saldo 100).2.1 (by decide)⟩

/-- **C10.** The balance and ceiling comparisons in `Saque.executar` are
strict: withdrawing the entire balance (when positive, within the ceiling,
and below the count limit) succeeds and leaves the balance exactly 0, and
a withdrawal of exactly the ceiling amount is never rejected with
`excede_limite`. -/
theorem saque_comparacoes_estritas_spec (conta : Conta) :
    (0 < conta.saldo → conta.saldo ≤ conta.limite →
      conta.numero_saques < conta.limite_saques →
      (Saque.executar conta.saldo conta).2.1 = true ∧
      (Saque.executar conta.saldo conta).1.saldo = 0) ∧
    (Saque.executar conta.limite conta).2.2 ≠ some "excede_limite" := by
  constructor
  · intro h1 h2 h3
    simp only [Saque.executar, Historico.registrar]
    split_ifs <;>
      first
        | exact ⟨rfl, by simp⟩
        | (exfalso; first | linarith | omega)
  · simp only [Saque.executar, Historico.registrar]
    split_ifs <;> first | (exfalso; linarith) | simp

/-- Witness for C10: on the concrete account with balance 200 (ceiling
500, no withdrawals yet), withdrawing the whole 200 succeeds and zeroes
the balance. -/
theorem saque_comparacoes_estritas_spec_witness :
    0 < conta_com_saldo.saldo ∧
    conta_com_saldo.saldo ≤ conta_com_saldo.limite ∧
    conta_com_saldo.numero_saques < conta_com_saldo.limite_saques ∧
    (Saque.executar conta_com_saldo.saldo conta_com_saldo).2.1 = true ∧
    (Saque.executar conta_com_saldo.saldo conta_com_saldo).1.saldo = 0 := by
  have h1 : (0 : ℚ) < conta_com_saldo.saldo := by norm_num [conta_com_saldo]
  have h2 : conta_com_saldo.saldo ≤ conta_com_saldo.limite := by
    norm_num [conta_com_saldo]
  have h3 : conta_com_saldo.numero_saques < conta_com_saldo.limite_saques := by
    decide
  exact ⟨h1, h2, h3,
    ((saque_comparacoes_estritas_spec conta_com_saldo).1 h1 h2 h3).1,
    ((saque_comparacoes_estritas_spec conta_com_saldo).1 h1 h2 h3).2⟩

/-- **C6.** `criar_conta` fails (returns `none`, after the
"Usuário não encontrado" message) and creates no account when the cpf is
not registered; when the lookup succeeds it builds the new `Conta` with
the given sequential number, zero balance, ceiling 500, maximum
withdrawals 3, withdrawal count 0 and an empty history. -/
theorem criar_conta_spec (agencia : String) (numero_conta : Nat)
    (cpf : String) (usuarios : List PessoaFisica) :
    (filtrar_usuario_por_cpf cpf usuarios = none →
      criar_conta agencia numero_conta cpf usuarios = none) ∧
    (∀ usuario, filtrar_usuario_por_cpf cpf usuarios = some usuario →
      criar_conta agencia numero_conta cpf usuarios =
        some ⟨agencia, numero_conta, usuario, 0, 500, 3, 0, ⟨[]⟩⟩) := by
  constructor
  · intro h
    simp [criar_conta, h]
  · intro usuario h
    simp [criar_conta, h]

/-- Witness for C6: `pessoa_exemplo`'s cpf opens an account with the
defaults; an unknown cpf opens nothing. -/
theorem criar_conta_spec_witness :
    filtrar_usuario_por_cpf "000" [pessoa_exemplo] = none ∧
    criar_conta "0001" 1 "000" [pessoa_exemplo] = none ∧
    filtrar_usuario_por_cpf "11122233344" [pessoa_exemplo] =
      some pessoa_exemplo ∧
    criar_conta "0001" 1 "11122233344" [pessoa_exemplo] =
      some ⟨"0001", 1, pessoa_exemplo, 0, 500, 3, 0, ⟨[]⟩⟩ := by
  have h1 : filtrar_usuario_por_cpf "000" [pessoa_exemplo] = none := by decide
  have h2 : filtrar_usuario_por_cpf "11122233344" [pessoa_exemplo] =
      some pessoa_exemplo := by decide
  exact ⟨h1, (criar_conta_spec "0001" 1 "000" [pessoa_exemplo]).1 h1, h2,
    (criar_conta_spec "0001" 1 "11122233344" [pessoa_exemplo]).2
      pessoa_exemplo h2⟩

/-- The linear scan finds nobody exactly when no registered user carries
the cpf. -/
theorem filtrar_eq_none_iff (cpf : String) :
    ∀ usuarios : List PessoaFisica,
      filtrar_usuario_por_cpf cpf usuarios = none ↔
        ∀ u ∈ usuarios, u.cpf ≠ cpf
  | [] => by simp [filtrar_usuario_por_cpf]
  | u :: resto => by
      simp only [filtrar_usuario_por_cpf]
      split_ifs with h
      · simp only [beq_iff_eq] at h
        simp [h]
      · simp only [beq_iff_eq] at h
        simp [filtrar_eq_none_iff cpf resto, h]

/-- **C7.** Registering a person whose cpf is already present fails with
the duplicate signal and returns the person list unchanged; a fresh cpf
appends exactly one new `PessoaFisica`. -/
theorem criar_usuario_spec (cpf nome data_nascimento endereco : String)
    (usuarios : List PessoaFisica) :
    ((∃ u ∈ usuarios, u.cpf = cpf) →
      criar_usuario cpf nome data_nascimento endereco usuarios =
        (false, usuarios)) ∧
    ((∀ u ∈ usuarios, u.cpf ≠ cpf) →
      criar_usuario cpf nome data_nascimento endereco usuarios =
        (true, usuarios ++ [⟨nome, endereco, cpf, data_nascimento⟩]) ∧
      (usuarios ++ [(⟨nome, endereco, cpf, data_nascimento⟩ :
          PessoaFisica)]).length = usuarios.length + 1) := by
  constructor
  · rintro ⟨u, hu, hcpf⟩
    cases hf : filtrar_usuario_por_cpf cpf usuarios with
    | none => exact absurd hcpf ((filtrar_eq_none_iff cpf usuarios).1 hf u hu)
    | some w => simp [criar_usuario, hf]
  · intro h
    have hf : filtrar_usuario_por_cpf cpf usuarios = none :=
      (filtrar_eq_none_iff cpf usuarios).2 h
    exact ⟨by simp [criar_usuario, hf], by simp⟩

/-- Witness for C7: re-registering `pessoa_exemplo`'s cpf is rejected with
the list untouched; a fresh cpf appends the one new person. -/
theorem criar_usuario_spec_witness :
    (∃ u ∈ [pessoa_exemplo], u.cpf = "11122233344") ∧
    criar_usuario "11122233344" "Bia" "02-02-1995" "Rua B, 2"
      [pessoa_exemplo] = (false, [pessoa_exemplo]) ∧
    (∀ u ∈ [pessoa_exemplo], u.cpf ≠ "55566677788") ∧
    criar_usuario "55566677788" "Bia" "02-02-1995" "Rua B, 2"
      [pessoa_exemplo] =
      (true, [pessoa_exemplo, ⟨"Bia", "Rua B, 2", "55566677788",
        "02-02-1995"⟩]) := by
  have h1 : ∃ u ∈ [pessoa_exemplo], u.cpf = "11122233344" :=
    ⟨pessoa_exemplo, by decide⟩
  have h2 : ∀ u ∈ [pessoa_exemplo], u.cpf ≠ "55566677788" := by decide
  exact ⟨h1,
    (criar_usuario_spec "11122233344" "Bia" "02-02-1995" "Rua B, 2"
      [pessoa_exemplo]).1 h1,
    h2,
    ((criar_usuario_spec "55566677788" "Bia" "02-02-1995" "Rua B, 2"
      [pessoa_exemplo]).2 h2).1⟩

/-- `String.intercalate.go` peels a leading chunk off its accumulator. -/
theorem intercalate_go_append (s a : String) :
    ∀ (resto : List String) (b : String),
      String.intercalate.go (a ++ b) s resto =
        a ++ String.intercalate.go b s resto
  | [], _ => rfl
  | x :: resto, b => by
      show String.intercalate.go (a ++ b ++ s ++ x) s resto =
        a ++ String.intercalate.go (b ++ s ++ x) s resto
      rw [String.append_assoc a b s, String.append_assoc a (b ++ s) x]
      exact intercalate_go_append s a resto (b ++ s ++ x)

/-- `texto` of a nonempty history is the head line, a newline, then the
`texto` of the tail. -/
theorem historico_texto_cons (x : String) (xs : List String) :
    Historico.texto ⟨x :: xs⟩ = (x ++ "\n") ++ Historico.texto ⟨xs⟩ := by
  cases xs with
  | nil =>
      show x ++ "\n" = (x ++ "\n") ++ ""
      rw [String.append_empty]
  | cons y ys =>
      show String.intercalate.go (x ++ "\n" ++ y) "\n" ys ++ "\n" =
        (x ++ "\n") ++ (String.intercalate.go y "\n" ys ++ "\n")
      rw [intercalate_go_append "\n" (x ++ "\n") ys y, String.append_assoc]

/-- `String.join` of a cons. -/
theorem string_join_cons (x : String) (xs : List String) :
    String.join (x :: xs) = x ++ String.join xs := by
  apply String.ext
  simp [String.join_eq]

/-- `texto` renders each record, in insertion order, terminated by the
newline separator. -/
theorem historico_texto_eq_join :
    ∀ regs : List String,
      Historico.texto ⟨regs⟩ =
        String.join (regs.map (fun linha => linha ++ "\n"))
  | [] => rfl
  | x :: xs => by
      rw [historico_texto_cons, List.map_cons, string_join_cons,
        historico_texto_eq_join xs]

/-- **C9.** `Historico.texto` returns the recorded lines joined in
insertion order, each followed by the line separator, and the empty string
when the history is empty.  The Python method only reads `registros`; it
is embedded as a pure function of the history, so it mutates nothing. -/
theorem historico_texto_spec (h : Historico) :
    h.texto = String.join (h.registros.map (fun linha => linha ++ "\n")) ∧
    (h.registros = [] → h.texto = "") := by
  obtain ⟨regs⟩ := h
  refine ⟨historico_texto_eq_join regs, ?_⟩
  intro hr
  cases hr
  rfl

/-- Witness for C9: the empty history renders as `""`, and a two-record
history renders as the two newline-terminated lines in order. -/
theorem historico_texto_spec_witness :
    Historico.texto ⟨[]⟩ = "" ∧
    Historico.texto ⟨["a", "b"]⟩ =
      String.join (["a", "b"].map (fun linha => linha ++ "\n")) :=
  ⟨(historico_texto_spec ⟨[]⟩).2 rfl, (historico_texto_spec ⟨["a", "b"]⟩).1⟩

/-- One dispatched transaction: failure leaves the account untouched,
the history grows by exactly the success count (0 or 1), the withdrawal
ceiling is never changed, non-negativity of the balance is preserved, and
the count bound is preserved. -/
theorem executar_transacao_passo (conta : Conta) (t : Transacao) :
    ((conta.executar_transacao t).2.sucesso = false →
      (conta.executar_transacao t).1 = conta) ∧
    (conta.executar_transacao t).1.historico.registros.length =
      conta.historico.registros.length +
        (if (conta.executar_transacao t).2.sucesso = true then 1 else 0) ∧
    (conta.executar_transacao t).1.limite_saques = conta.limite_saques ∧
    (0 ≤ conta.saldo → 0 ≤ (conta.executar_transacao t).1.saldo) ∧
    (conta.numero_saques ≤ conta.limite_saques →
      (conta.executar_transacao t).1.numero_saques ≤
        (conta.executar_transacao t).1.limite_saques) := by
  cases t <;>
    simp only [Conta.executar_transacao, Deposito.executar, Saque.executar,
      Historico.registrar] <;>
    split_ifs <;>
    refine ⟨?_, ?_, ?_, ?_, ?_⟩ <;> intros <;> simp_all <;>
    first | linarith | omega

/-- Over any transaction sequence, a non-negative balance and an in-bound
withdrawal count are preserved. -/
theorem sequencia_invariante :
    ∀ (ts : List Transacao) (conta : Conta),
      0 ≤ conta.saldo → conta.numero_saques ≤ conta.limite_saques →
      0 ≤ (executar_sequencia conta ts).1.saldo ∧
      (executar_sequencia conta ts).1.numero_saques ≤
        (executar_sequencia conta ts).1.limite_saques
  | [], _ => fun h1 h2 => ⟨h1, h2⟩
  | t :: resto, conta => fun h1 h2 => by
      have hp := executar_transacao_passo conta t
      have ih := sequencia_invariante resto (conta.executar_transacao t).1
        (hp.2.2.2.1 h1) (hp.2.2.2.2 h2)
      simpa [executar_sequencia] using ih

/-- Over any transaction sequence, the history length grows by exactly the
number of successful outcomes. -/
theorem sequencia_historico :
    ∀ (ts : List Transacao) (conta : Conta),
      (executar_sequencia conta ts).1.historico.registros.length =
        conta.historico.registros.length +
          ((executar_sequencia conta ts).2.filter
            (fun r => r.sucesso)).length
  | [], conta => by simp [executar_sequencia]
  | t :: resto, conta => by
      have hp := (executar_transacao_passo conta t).2.1
      have ih := sequencia_historico resto (conta.executar_transacao t).1
      simp only [executar_sequencia, List.filter_cons]
      split_ifs with hs
      · simp only [List.length_cons]
        rw [ih, hp]
        simp only [hs, if_true]
        omega
      · rw [ih, hp]
        simp [hs]

/-- **C3.** Starting from a non-negative balance and withdrawal count 0,
every sequence of deposits and withdrawals keeps the balance ≥ 0 and the
withdrawal count ≤ its ceiling (`numero_saques ≤ limite_saques`); a
withdrawal that would violate either bound is rejected with no state
change. -/
theorem conta_invariantes_spec (conta : Conta) (h0 : 0 ≤ conta.saldo)
    (h1 : conta.numero_saques = 0) :
    (∀ ts : List Transacao,
      0 ≤ (executar_sequencia conta ts).1.saldo ∧
      (executar_sequencia conta ts).1.numero_saques ≤
        (executar_sequencia conta ts).1.limite_saques) ∧
    (∀ (c : Conta) (valor : ℚ),
      c.saldo < valor ∨ c.limite_saques ≤ c.numero_saques →
      (Saque.executar valor c).1 = c ∧ (Saque.executar valor c).2.1 = false) := by
  constructor
  · intro ts
    exact sequencia_invariante ts conta h0 (by omega)
  · rintro c valor (hv | hv) <;> simp only [Saque.executar] <;>
      split_ifs <;>
      first | exact ⟨rfl, rfl⟩ | (exfalso; linarith) | (exfalso; omega)

/-- Witness for C3: the fresh account (balance 0, count 0) keeps both
invariants across a deposit of 150 followed by a withdrawal of 100. -/
theorem conta_invariantes_spec_witness :
    0 ≤ conta_exemplo.saldo ∧ conta_exemplo.numero_saques = 0 ∧
    (0 ≤ (executar_sequencia conta_exemplo
        [.deposito 150, .saque 100]).1.saldo ∧
      (executar_sequencia conta_exemplo
        [.deposito 150, .saque 100]).1.numero_saques ≤
      (executar_sequencia conta_exemplo
        [.deposito 150, .saque 100]).1.limite_saques) := by
  have h0 : 0 ≤ conta_exemplo.saldo := by norm_num [conta_exemplo]
  have h1 : conta_exemplo.numero_saques = 0 := rfl
  exact ⟨h0, h1,
    (conta_invariantes_spec conta_exemplo h0 h1).1 [.deposito 150, .saque 100]⟩

/-- **C4.** For every account and transaction sequence, the history length
equals its initial length plus the number of outcomes that reported
success, and every failed transaction is atomic: the dispatched step
returns the account unchanged.  The core is embedded as total functions
returning outcomes, so no exception escapes it. -/
theorem historico_contagem_spec (conta : Conta) (ts : List Transacao) :
    (executar_sequencia conta ts).1.historico.registros.length =
      conta.historico.registros.length +
        ((executar_sequencia conta ts).2.filter (fun r => r.sucesso)).length ∧
    (∀ t : Transacao, (conta.executar_transacao t).2.sucesso = false →
      (conta.executar_transacao t).1 = conta) :=
  ⟨sequencia_historico ts conta,
   fun t => (executar_transacao_passo conta t).1⟩

/-- Witness for C4: on the fresh account a withdrawal of 100 fails and
changes nothing, and after the one-deposit sequence the history length is
the success count. -/
theorem historico_contagem_spec_witness :
    (conta_exemplo.executar_transacao (.saque 100)).2.sucesso = false ∧
    (conta_exemplo.executar_transacao (.saque 100)).1 = conta_exemplo ∧
    (executar_sequencia conta_exemplo
        [.deposito 150]).1.historico.registros.length =
      conta_exemplo.historico.registros.length +
        ((executar_sequencia conta_exemplo [.deposito 150]).2.filter
          (fun r => r.sucesso)).length :=
  ⟨by decide,
   (historico_contagem_spec conta_exemplo []).2 (.saque 100) (by decide),
   (historico_contagem_spec conta_exemplo [.deposito 150]).1⟩

/-- Counterexample to C8 as stated: on the fresh account, a deposit of
150.00 succeeds but the recorded history entry is not the claimed
`"Deposit:\tR$ 150.00"` — the source's label is the Portuguese
`"Depósito:"`. -/
theorem descricao_ingles_counterexample :
    (Deposito.executar 150 conta_exemplo).2 = true ∧
    (Deposito.executar 150 conta_exemplo).1.historico.registros ≠
      ["Deposit:\tR$ 150.00"] := by
  decide

/-- **C8 (amended).** A successful deposit of `a` appends the description
`"Depósito:\tR$ <a formatted to 2 decimals>"` and a successful withdrawal
appends `"Saque:\t\tR$ <a formatted to 2 decimals>"` — two-decimal
fixed-point currency text with a distinguishing (Portuguese) label per
variant, the withdrawal label followed by two tab characters; on a fresh
account, Deposito(150.00) succeeds and leaves the history equal to
`["Depósito:\tR$ 150.00"]`. -/
theorem descricao_format_spec (conta : Conta) (valor : ℚ) :
    (0 < valor →
      (Deposito.executar valor conta).1.historico.registros =
        conta.historico.registros ++ ["Depósito:\tR$ " ++ formatar2 valor]) ∧
    ((Saque.executar valor conta).2.1 = true →
      (Saque.executar valor conta).1.historico.registros =
        conta.historico.registros ++ ["Saque:\t\tR$ " ++ formatar2 valor]) ∧
    (Deposito.executar 150 conta_exemplo).2 = true ∧
    (Deposito.executar 150 conta_exemplo).1.historico.registros =
      ["Depósito:\tR$ 150.00"] := by
  refine ⟨?_, ?_, by decide, by decide⟩
  · intro h
    simp only [Deposito.executar, Deposito.descricao, Historico.registrar]
    split_ifs <;> first | rfl | (exfalso; linarith)
  · simp only [Saque.executar, Saque.descricao, Historico.registrar]
    split_ifs <;> intro h <;> first | rfl | simp at h

/-- Witness for C8 (amended): the deposit description at 150 and the
withdrawal description at 100 are appended verbatim. -/
theorem descricao_format_spec_witness :
    (0 : ℚ) < 150 ∧
    (Deposito.executar 150 conta_exemplo).1.historico.registros =
      conta_exemplo.historico.registros ++
        ["Depósito:\tR$ " ++ formatar2 150] ∧
    (Saque.executar 100 conta_com_saldo).2.1 = true ∧
    (Saque.executar 100 conta_com_saldo).1.historico.registros =
      conta_com_saldo.historico.registros ++
        ["Saque:\t\tR$ " ++ formatar2 100] :=
  ⟨by norm_num, (descricao_format_spec conta_exemplo 150).1 (by norm_num),
   by decide, (descricao_format_spec conta_com_saldo 100).2.1 (by decide)⟩

end Desafio
